import Mathlib

/-!
Verification of the adaptive retrieval-and-scoring pipeline of the
Vietnamese MCQ RAG repository.  The Python sources under `src/` are
shallowly embedded below: pure functions become Lean functions over
`List Char` / `String` / `ℚ`, the external model services (generation,
vector retrieval, reranking) become explicit function parameters, and
Python floats used only as exact constants (0.0, 0.5, 1.0) become
rationals.
-/

namespace Task2

/- ===================================================================
   Scorer — src/mcq_processor.py, MCQProcessor.calculate_score
   =================================================================== -/

/-- Embeds `MCQProcessor.calculate_score` (src/mcq_processor.py, lines 348-376).
The predicted and actual answer lists are converted to sets
(`set(predicted)` / `set(actual)` become `List.toFinset`), the counts
`k = len(actual_set)`, `c = len(predicted_set & actual_set)`,
`w = len(predicted_set - actual_set)` and the error count
`e = (k - c) + w` are computed, and the score is `1.0` if `e = 0`,
`0.5` if `e = 1`, and `0.0` otherwise.  Scores are modelled as
rationals; `k - c` is natural subtraction, which agrees with Python's
integer subtraction because `c ≤ k` always holds. -/
def calculate_score (predicted actual : List Char) : ℚ :=
  let predicted_set := predicted.toFinset
  let actual_set := actual.toFinset
  let k := actual_set.card
  let c := (predicted_set ∩ actual_set).card
  let w := (predicted_set \ actual_set).card
  let e := (k - c) + w
  if e = 0 then 1
  else if e = 1 then 1/2
  else 0

/-- One element of the `detailed_results` list built by
`MCQProcessor.evaluate_results` (src/mcq_processor.py). -/
structure DetailedResult where
  question_idx : Nat
  predicted : List Char
  actual : List Char
  score : ℚ
  processing_time : ℚ
deriving DecidableEq

/-- The evaluation summary dictionary returned by
`MCQProcessor.evaluate_results` (src/mcq_processor.py). -/
structure EvaluationSummary where
  final_score : ℚ
  total_questions : Nat
  perfect_answers : Nat
  partial_answers : Nat
  wrong_answers : Nat
  average_processing_time : ℚ
  detailed_results : List DetailedResult
deriving DecidableEq

/-- Embeds `MCQProcessor.evaluate_results` (src/mcq_processor.py, lines
379-434).  The Python loop `for i in range(min_length)` over
`predictions[i]` and `ground_truth[i]` is `List.zip`; each prediction is
a tuple `(pred_idx, predicted, proc_time)` and each ground-truth entry a
tuple `(actual_num, actual_answers)`.  The length-mismatch branch only
logs, so it has no observable effect here.  `final_score` is
`(total_score / len(scores)) * 100` when `scores` is nonempty and `0`
otherwise; the perfect/partial/wrong counters are the Python generator
sums `sum(1 for s in scores if s == x)`. -/
def evaluate_results (predictions : List (Nat × List Char × ℚ))
    (ground_truth : List (Nat × List Char)) : EvaluationSummary :=
  let detailed_results : List DetailedResult :=
    (predictions.zip ground_truth).map (fun pg =>
      { question_idx := pg.1.1 + 1
        predicted := pg.1.2.1
        actual := pg.2.2
        score := calculate_score pg.1.2.1 pg.2.2
        processing_time := pg.1.2.2 })
  let scores := detailed_results.map (fun r => r.score)
  { final_score :=
      if scores.length ≠ 0 then (scores.sum / (scores.length : ℚ)) * 100 else 0
    total_questions := scores.length
    perfect_answers := scores.countP (fun s => decide (s = 1))
    partial_answers := scores.countP (fun s => decide (s = 1/2))
    wrong_answers := scores.countP (fun s => decide (s = 0))
    average_processing_time :=
      if detailed_results.length ≠ 0 then
        (detailed_results.map (fun r => r.processing_time)).sum /
          ((detailed_results.length : ℚ))
      else 0
    detailed_results := detailed_results }

/- ===================================================================
   Character-level helpers modelling Python string builtins
   =================================================================== -/

/-- Models Python's `\s` / `str.strip()` whitespace test, restricted to the
ASCII whitespace characters (the only whitespace occurring in the data). -/
def isPyWS (c : Char) : Bool :=
  c == ' ' || c == '\t' || c == '\n' || c == '\r' || c == '\x0b' || c == '\x0c'

/-- Models Python's `str.lower()` (and the character folding performed by
`re.IGNORECASE`) for the character repertoire of the embedded patterns:
ASCII letters plus the Vietnamese uppercase letters occurring in the
pattern literals. -/
def pyLower (c : Char) : Char :=
  if c = 'Đ' then 'đ'
  else if c = 'Á' then 'á'
  else if c = 'Ú' then 'ú'
  else if c = 'Ế' then 'ế'
  else if c = 'Ậ' then 'ậ'
  else if c = 'Í' then 'í'
  else if c = 'Ề' then 'ề'
  else if c = 'À' then 'à'
  else Char.toLower c

/-- Models Python's `str.strip()`: drop leading and trailing whitespace. -/
def pyStrip (s : String) : String :=
  ⟨((s.data.dropWhile isPyWS).reverse.dropWhile isPyWS).reverse⟩

/- ===================================================================
   Answer parser — src/rag_system.py, VietnameseMCQRAG.parse_answer
   =================================================================== -/

/-- The literal text of the answer patterns
`r"Đáp án đúng:\s*([A-D,\s]+)"` and `r"đáp án đúng:\s*([A-D,\s]+)"`
(patterns 1 and 2 of `parse_answer`), in case-folded form: under
`re.IGNORECASE` both patterns denote the same matcher. -/
def dapAnLit : List Char := "đáp án đúng:".data

/-- The literal head of pattern 3, `r"KẾT LUẬN:\s*.*?Đáp án đúng:\s*([A-D,\s]+)"`,
case-folded. -/
def ketLuanLit : List Char := "kết luận:".data

/-- The literal head of pattern 4,
`r"\*\*KẾT LUẬN:\*\*\s*.*?Đáp án đúng:\s*([A-D,\s]+)"`, case-folded. -/
def starKetLuanLit : List Char := "**kết luận:**".data

/-- Case-insensitive literal test: does `s` start with the (already
lower-case) literal `lit`, comparing text characters through `pyLower`?
This is how `re.IGNORECASE` matches the literal parts of the patterns. -/
def startsWithFold : List Char → List Char → Bool
  | [], _ => true
  | _ :: _, [] => false
  | l :: lit, c :: s => (pyLower c == l) && startsWithFold lit s

/-- The letters accepted by `re.findall(r'[A-D]', text.upper())`:
`A`-`D` directly, `a`-`d` after the `.upper()` call. -/
def isAnsLetter (c : Char) : Bool :=
  ('A' ≤ c && c ≤ 'D') || ('a' ≤ c && c ≤ 'd')

/-- The character class `[A-D,\s]` of the capture group under
`re.IGNORECASE` (which adds `a`-`d`). -/
def isAnsClass (c : Char) : Bool :=
  isAnsLetter c || c == ',' || isPyWS c

/-- Models `re.findall(r'[A-D]', answer_text.upper())` applied to a
captured region: keep the `A`-`D`/`a`-`d` characters, upper-cased.
(The preceding `.strip()` only removes whitespace and so cannot change
the extracted letters.) -/
def extractLetters (region : List Char) : List Char :=
  (region.filter isAnsLetter).map Char.toUpper

/-- Insertion step of the character sort used to model Python's `sorted`. -/
def insertChar (c : Char) : List Char → List Char
  | [] => [c]
  | d :: rest => if c ≤ d then c :: d :: rest else d :: insertChar c rest

/-- Ascending insertion sort on characters; together with `List.dedup`
this models Python's `sorted(list(set(answers)))` (same distinct
elements, ascending order). -/
def sortChars (l : List Char) : List Char :=
  l.foldr insertChar []

/-- One step of `re.finditer` for the pattern
`đáp án đúng:\s*([A-D,\s]+)` (case-insensitive, DOTALL): scan `s`
left-to-right for the first position where the folded literal occurs and
is followed by at least one `[A-D,\s]` character.  Returns the maximal
run of class characters after the colon (the region the greedy
`\s*([A-D,\s]+)` consumes; the capture differs from it only by leading
whitespace, which carries no letters) together with the rest of the text
after the match.  `fuel` decreases on every step so the function is
structural; it is called with `fuel = s.length + 1`, enough to scan all
of `s`. -/
def findDapAn : Nat → List Char → Option (List Char × List Char)
  | 0, _ => none
  | _ + 1, [] => none
  | fuel + 1, c :: rest =>
    if startsWithFold dapAnLit (c :: rest) then
      let region := ((c :: rest).drop dapAnLit.length).takeWhile isAnsClass
      if region.isEmpty then findDapAn fuel rest
      else some (region, (c :: rest).drop (dapAnLit.length + region.length))
    else findDapAn fuel rest

/-- All matches of the `đáp án đúng:` pattern in text order
(`re.finditer` is non-overlapping and left-to-right: after a match the
scan resumes at the end of the match). -/
def dapAnScanAux : Nat → List Char → List (List Char)
  | 0, _ => []
  | fuel + 1, s =>
    match findDapAn (s.length + 1) s with
    | none => []
    | some (region, rest) => region :: dapAnScanAux fuel rest

/-- The captured regions of all matches of patterns 1/2 of
`parse_answer` in the given text. -/
def p1Matches (s : List Char) : List (List Char) :=
  dapAnScanAux (s.length + 1) s

/-- All matches of a `LIT\s*.*?Đáp án đúng:\s*([A-D,\s]+)` pattern
(patterns 3 and 4 of `parse_answer`): at each occurrence of the folded
literal `lit`, the lazy `.*?` (DOTALL) reaches the nearest following
`đáp án đúng:` match; the scan then resumes after that match. -/
def prefScanAux (lit : List Char) : Nat → List Char → List (List Char)
  | 0, _ => []
  | _ + 1, [] => []
  | fuel + 1, c :: rest =>
    if startsWithFold lit (c :: rest) then
      match findDapAn ((c :: rest).length + 1) ((c :: rest).drop lit.length) with
      | some (region, rest2) => region :: prefScanAux lit fuel rest2
      | none => prefScanAux lit fuel rest
    else prefScanAux lit fuel rest

/-- Captured regions of pattern 3 of `parse_answer`. -/
def p3Matches (s : List Char) : List (List Char) :=
  prefScanAux ketLuanLit (s.length + 1) s

/-- Captured regions of pattern 4 of `parse_answer`. -/
def p4Matches (s : List Char) : List (List Char) :=
  prefScanAux starKetLuanLit (s.length + 1) s

/-- The per-pattern step of `parse_answer`: if the pattern has matches,
take the LAST match (`matches[-1]`), extract the `A`-`D` letters from
its captured text, and if any letters were found return them
deduplicated and sorted (`sorted(list(set(answers)))`); otherwise the
pattern is treated as failed and the next pattern is tried. -/
def tryMatches (regions : List (List Char)) : Option (List Char) :=
  match regions.getLast? with
  | none => none
  | some region =>
    let answers := extractLetters region
    if answers.isEmpty then none else some (sortChars answers.dedup)

/-- Embeds `VietnameseMCQRAG.parse_answer` (src/rag_system.py, lines
972-1012).  Empty or whitespace-only input returns the debug sentinel
`['E']`; otherwise the four patterns are tried in order (patterns 1 and
2 denote the same matcher under `re.IGNORECASE`), and if none yields
letters the sentinel `['E']` is returned.  The `try/except` wrappers
cannot fire in the embedding (no Python exceptions exist here), matching
the fact that the compiled patterns are valid regexes. -/
def parse_answer (response : String) : List Char :=
  if response.data.all isPyWS then ['E']
  else
    match tryMatches (p1Matches response.data) with
    | some a => a
    | none =>
      match tryMatches (p1Matches response.data) with
      | some a => a
      | none =>
        match tryMatches (p3Matches response.data) with
        | some a => a
        | none =>
          match tryMatches (p4Matches response.data) with
          | some a => a
          | none => ['E']

/- ===================================================================
   A small regular-expression engine for the classifier patterns
   (src/question_classifier.py uses `re.search` on each pattern)
   =================================================================== -/

/-- Regular-expression syntax covering exactly the constructs used by the
classifier patterns: character classes (literals, `\s`, `\d`, `.`,
`[+\-×÷*/]`), concatenation, alternation, `*`/`+`/`?` (via `star`), and
the end anchor `$`. -/
inductive Regex where
  | eps : Regex
  | cls : (Char → Bool) → Regex
  | seq : Regex → Regex → Regex
  | alt : Regex → Regex → Regex
  | star : Regex → Regex
  | eos : Regex

/-- A single literal character (no metacharacters occur escaped in the
patterns except `\.`, `\*`, which are also plain characters). -/
def chrR (c : Char) : Regex := .cls (fun d => d == c)

/-- A literal character sequence. -/
def strCs : List Char → Regex
  | [] => .eps
  | c :: cs => .seq (chrR c) (strCs cs)

/-- A literal string. -/
def strR (s : String) : Regex := strCs s.data

/-- Concatenation of a list of regexes. -/
def catR : List Regex → Regex
  | [] => .eps
  | [r] => r
  | r :: rs => .seq r (catR rs)

/-- Alternation of a nonempty list of regexes (`a|b|c`). -/
def orR : List Regex → Regex
  | [] => .cls (fun _ => false)
  | [r] => r
  | r :: rs => .alt r (orR rs)

/-- `r?` -/
def optR (r : Regex) : Regex := .alt r .eps

/-- `r+` -/
def plusR (r : Regex) : Regex := .seq r (.star r)

/-- `\s` -/
def wsC : Regex := .cls isPyWS

/-- `\s+` -/
def wsP : Regex := plusR wsC

/-- `\s*` -/
def wsS : Regex := .star wsC

/-- `\d` (ASCII digits; the corpus is ASCII-digit only) -/
def digC : Regex := .cls Char.isDigit

/-- `\d+` -/
def digP : Regex := plusR digC

/-- `\d*` -/
def digS : Regex := .star digC

/-- `.` without DOTALL: any character except newline. -/
def dotC : Regex := .cls (fun c => !(c == '\n'))

/-- `.*` -/
def dotS : Regex := .star dotC

/-- The arithmetic-operator class `[+\-×÷*/]` of the calculation pattern. -/
def arithOpC : Regex :=
  .cls (fun c => c == '+' || c == '-' || c == '×' || c == '÷' || c == '*' || c == '/')

/-- Structural size of a regex, used to compute a sufficient fuel bound. -/
def rsize : Regex → Nat
  | .eps => 1
  | .cls _ => 1
  | .seq a b => rsize a + rsize b + 1
  | .alt a b => rsize a + rsize b + 1
  | .star a => rsize a + 1
  | .eos => 1

/-- Backtracking matcher: `rmatch fuel r s` returns the list of suffixes
of `s` left over after matching some prefix of `s` against `r` (empty
list = no match).  A match of `star` re-enters the loop only after
consuming at least one character, which preserves the matched language
and makes the recursion terminate.  `fuel` decreases on every call
(keeping the definition structural, hence kernel-reducible); callers
pass a fuel larger than the maximal possible recursion depth. -/
def rmatch : Nat → Regex → List Char → List (List Char)
  | 0, _, _ => []
  | _ + 1, .eps, s => [s]
  | _ + 1, .cls _, [] => []
  | _ + 1, .cls p, c :: rest => if p c then [rest] else []
  | fuel + 1, .seq r1 r2, s => (rmatch fuel r1 s).flatMap (rmatch fuel r2)
  | fuel + 1, .alt r1 r2, s => rmatch fuel r1 s ++ rmatch fuel r2 s
  | fuel + 1, .star r1, s =>
    s :: (rmatch fuel r1 s).flatMap (fun s2 =>
      if s2.length < s.length then rmatch fuel (.star r1) s2 else [])
  | _ + 1, .eos, s => if s.isEmpty then [s] else []

/-- Fuel bound: every call either descends into a strict subterm of the
regex or re-enters a `star` after consuming a character, so recursion
depth is at most `(|s| + 1) * (rsize r + 2)`. -/
def rfuel (r : Regex) (s : List Char) : Nat :=
  (s.length + 1) * (rsize r + 2) + 1

/-- Models Python's `re.search(pattern, s)`: does the pattern match at
some start position in `s`? -/
def research (r : Regex) (s : List Char) : Bool :=
  (List.range (s.length + 1)).any (fun i =>
    !((rmatch (rfuel r (s.drop i)) r (s.drop i)).isEmpty))

/- ===================================================================
   Classifier — src/question_classifier.py, QuestionClassifier
   The pattern transcriptions below follow the `self.patterns` dict
   literally, on the lower-cased question text.
   =================================================================== -/

/-- `r'hãy\s+tính'` -/
def calcPat1 : Regex := catR [strR "hãy", wsP, strR "tính"]

/-- `r'tính\s+.*\s+bao nhiêu|tính\s+.*\s+giá trị|tính\s+.*\s+kết quả'` -/
def calcPat2 : Regex := orR
  [catR [strR "tính", wsP, dotS, wsP, strR "bao nhiêu"],
   catR [strR "tính", wsP, dotS, wsP, strR "giá trị"],
   catR [strR "tính", wsP, dotS, wsP, strR "kết quả"]]

/-- `r'bao nhiêu.*tính|giá trị.*tính|kết quả.*tính'` -/
def calcPat3 : Regex := orR
  [catR [strR "bao nhiêu", dotS, strR "tính"],
   catR [strR "giá trị", dotS, strR "tính"],
   catR [strR "kết quả", dotS, strR "tính"]]

/-- `r'tỉ lệ.*được giữ|phần trăm.*được giữ|tỉ lệ.*giữ lại'` -/
def calcPat4 : Regex := orR
  [catR [strR "tỉ lệ", dotS, strR "được giữ"],
   catR [strR "phần trăm", dotS, strR "được giữ"],
   catR [strR "tỉ lệ", dotS, strR "giữ lại"]]

/-- `r'\d+\s*[+\-×÷*/]\s*\d+'` -/
def calcPat5 : Regex := catR [digP, wsS, arithOpC, wsS, digP]

/-- `r'λ\d+|eigenvalue|trị riêng|ma trận|matrix'` -/
def calcPat6 : Regex := orR
  [catR [chrR 'λ', digP], strR "eigenvalue", strR "trị riêng",
   strR "ma trận", strR "matrix"]

/-- `r'công thức.*tính|formula.*tính|tính toán.*theo'` -/
def calcPat7 : Regex := orR
  [catR [strR "công thức", dotS, strR "tính"],
   catR [strR "formula", dotS, strR "tính"],
   catR [strR "tính toán", dotS, strR "theo"]]

/-- `r'=\s*\d+|bằng\s*\d+|kết quả\s*=\s*\d+'` -/
def calcPat8 : Regex := orR
  [catR [chrR '=', wsS, digP],
   catR [strR "bằng", wsS, digP],
   catR [strR "kết quả", wsS, chrR '=', wsS, digP]]

/-- `r'tính\s+.*\s+theo\s+công\s+thức'` -/
def calcPat9 : Regex :=
  catR [strR "tính", wsP, dotS, wsP, strR "theo", wsP, strR "công", wsP, strR "thức"]

/-- `r'bảng\s*\d+\.?\d*|theo\s+bảng|dựa\s+vào\s+bảng'` -/
def tablePat1 : Regex := orR
  [catR [strR "bảng", wsS, digP, optR (chrR '.'), digS],
   catR [strR "theo", wsP, strR "bảng"],
   catR [strR "dựa", wsP, strR "vào", wsP, strR "bảng"]]

/-- `r'bảng.*cho\s+biết|bảng.*cung\s+cấp'` -/
def tablePat2 : Regex := orR
  [catR [strR "bảng", dotS, strR "cho", wsP, strR "biết"],
   catR [strR "bảng", dotS, strR "cung", wsP, strR "cấp"]]

/-- `r'table\s*\d+|theo\s+table'` -/
def tablePat3 : Regex := orR
  [catR [strR "table", wsS, digP],
   catR [strR "theo", wsP, strR "table"]]

/-- `r'public_\d+'` -/
def docPat1 : Regex := catR [strR "public_", digP]

/-- `r'public\s+\d+'` -/
def docPat2 : Regex := catR [strR "public", wsP, digP]

/-- `r'theo\s+tài\s+liệu'` -/
def docPat3 : Regex := catR [strR "theo", wsP, strR "tài", wsP, strR "liệu"]

/-- `r'theo\s+tài\s+liệu\s+\d+'` -/
def docPat4 : Regex :=
  catR [strR "theo", wsP, strR "tài", wsP, strR "liệu", wsP, digP]

/-- `r'theo\s+văn\s+bản'` -/
def docPat5 : Regex := catR [strR "theo", wsP, strR "văn", wsP, strR "bản"]

/-- `r'trong\s+tài\s+liệu'` -/
def docPat6 : Regex := catR [strR "trong", wsP, strR "tài", wsP, strR "liệu"]

/-- `r'là\s+gì\s*$|định nghĩa.*là|khái niệm.*là'` -/
def defnPat1 : Regex := orR
  [catR [strR "là", wsP, strR "gì", wsS, .eos],
   catR [strR "định nghĩa", dotS, strR "là"],
   catR [strR "khái niệm", dotS, strR "là"]]

/-- `r'viết\s+tắt.*là|tên\s+gọi.*là|được\s+gọi\s+là'` -/
def defnPat2 : Regex := orR
  [catR [strR "viết", wsP, strR "tắt", dotS, strR "là"],
   catR [strR "tên", wsP, strR "gọi", dotS, strR "là"],
   catR [strR "được", wsP, strR "gọi", wsP, strR "là"]]

/-- `r'được\s+định\s+nghĩa|được\s+hiểu|được\s+ký\s+hiệu'` -/
def defnPat3 : Regex := orR
  [catR [strR "được", wsP, strR "định", wsP, strR "nghĩa"],
   catR [strR "được", wsP, strR "hiểu"],
   catR [strR "được", wsP, strR "ký", wsP, strR "hiệu"]]

/-- `r'định\s+nghĩa\s+của|khái\s+niệm\s+của'` -/
def defnPat4 : Regex := orR
  [catR [strR "định", wsP, strR "nghĩa", wsP, strR "của"],
   catR [strR "khái", wsP, strR "niệm", wsP, strR "của"]]

/-- `r'khác\s+nhau.*ở|giống\s+nhau.*ở'` -/
def compPat1 : Regex := orR
  [catR [strR "khác", wsP, strR "nhau", dotS, strR "ở"],
   catR [strR "giống", wsP, strR "nhau", dotS, strR "ở"]]

/-- `r'khác\s+.*\s+ở\s+những\s+điểm|giống\s+.*\s+ở\s+những\s+điểm'` -/
def compPat2 : Regex := orR
  [catR [strR "khác", wsP, dotS, wsP, strR "ở", wsP, strR "những", wsP, strR "điểm"],
   catR [strR "giống", wsP, dotS, wsP, strR "ở", wsP, strR "những", wsP, strR "điểm"]]

/-- `r'so\s+sánh.*và|điểm\s+khác|điểm\s+chung'` -/
def compPat3 : Regex := orR
  [catR [strR "so", wsP, strR "sánh", dotS, strR "và"],
   catR [strR "điểm", wsP, strR "khác"],
   catR [strR "điểm", wsP, strR "chung"]]

/-- `r'khác\s+biệt.*giữa|sự\s+khác\s+biệt'` -/
def compPat4 : Regex := orR
  [catR [strR "khác", wsP, strR "biệt", dotS, strR "giữa"],
   catR [strR "sự", wsP, strR "khác", wsP, strR "biệt"]]

/-- `r'bước\s+đầu\s+tiên|bước\s+nào|thứ\s+tự.*bước'` -/
def procPat1 : Regex := orR
  [catR [strR "bước", wsP, strR "đầu", wsP, strR "tiên"],
   catR [strR "bước", wsP, strR "nào"],
   catR [strR "thứ", wsP, strR "tự", dotS, strR "bước"]]

/-- `r'quy\s+trình.*gồm|quy\s+trình.*bao\s+nhiêu'` -/
def procPat2 : Regex := orR
  [catR [strR "quy", wsP, strR "trình", dotS, strR "gồm"],
   catR [strR "quy", wsP, strR "trình", dotS, strR "bao", wsP, strR "nhiêu"]]

/-- `r'tcvn|iso|theo.*quy\s+định|theo.*tiêu\s+chuẩn'` -/
def procPat3 : Regex := orR
  [strR "tcvn", strR "iso",
   catR [strR "theo", dotS, strR "quy", wsP, strR "định"],
   catR [strR "theo", dotS, strR "tiêu", wsP, strR "chuẩn"]]

/-- `r'sắp\s+xếp.*bước|thực\s+hiện.*bước'` -/
def procPat4 : Regex := orR
  [catR [strR "sắp", wsP, strR "xếp", dotS, strR "bước"],
   catR [strR "thực", wsP, strR "hiện", dotS, strR "bước"]]

/-- `r'quy\s+trình.*là\s+gì'` -/
def procPat5 : Regex :=
  catR [strR "quy", wsP, strR "trình", dotS, strR "là", wsP, strR "gì"]

/-- `r'giải\s+thích.*nguyên\s+lý|mô\s+tả.*nguyên\s+lý'` -/
def explPat1 : Regex := orR
  [catR [strR "giải", wsP, strR "thích", dotS, strR "nguyên", wsP, strR "lý"],
   catR [strR "mô", wsP, strR "tả", dotS, strR "nguyên", wsP, strR "lý"]]

/-- `r'nguyên\s+lý.*hoạt\s+động|cơ\s+chế.*hoạt\s+động'` -/
def explPat2 : Regex := orR
  [catR [strR "nguyên", wsP, strR "lý", dotS, strR "hoạt", wsP, strR "động"],
   catR [strR "cơ", wsP, strR "chế", dotS, strR "hoạt", wsP, strR "động"]]

/-- `r'hoạt\s+động.*như\s+thế\s+nào|vai\s+trò.*là\s+gì'` -/
def explPat3 : Regex := orR
  [catR [strR "hoạt", wsP, strR "động", dotS, strR "như", wsP, strR "thế", wsP, strR "nào"],
   catR [strR "vai", wsP, strR "trò", dotS, strR "là", wsP, strR "gì"]]

/-- `r'trình\s+bày.*cách|mô\s+tả.*cách'` -/
def explPat4 : Regex := orR
  [catR [strR "trình", wsP, strR "bày", dotS, strR "cách"],
   catR [strR "mô", wsP, strR "tả", dotS, strR "cách"]]

/-- `r'đâu\s+là.*đúng|đâu\s+không\s+phải'` -/
def identPat1 : Regex := orR
  [catR [strR "đâu", wsP, strR "là", dotS, strR "đúng"],
   catR [strR "đâu", wsP, strR "không", wsP, strR "phải"]]

/-- `r'thành\s+phần\s+nào|mô\s+hình\s+nào'` -/
def identPat2 : Regex := orR
  [catR [strR "thành", wsP, strR "phần", wsP, strR "nào"],
   catR [strR "mô", wsP, strR "hình", wsP, strR "nào"]]

/-- `r'công\s+nghệ\s+nào|thuật\s+toán\s+nào'` -/
def identPat3 : Regex := orR
  [catR [strR "công", wsP, strR "nghệ", wsP, strR "nào"],
   catR [strR "thuật", wsP, strR "toán", wsP, strR "nào"]]

/-- `r'phương\s+pháp\s+nào|đơn\s+vị\s+nào'` -/
def identPat4 : Regex := orR
  [catR [strR "phương", wsP, strR "pháp", wsP, strR "nào"],
   catR [strR "đơn", wsP, strR "vị", wsP, strR "nào"]]

/-- `r'ứng\s+dụng.*là\s+gì|sử\s+dụng.*để\s+làm'` -/
def applPat1 : Regex := orR
  [catR [strR "ứng", wsP, strR "dụng", dotS, strR "là", wsP, strR "gì"],
   catR [strR "sử", wsP, strR "dụng", dotS, strR "để", wsP, strR "làm"]]

/-- `r'dùng\s+để\s+làm\s+gì|mục\s+đích.*là\s+gì'` -/
def applPat2 : Regex := orR
  [catR [strR "dùng", wsP, strR "để", wsP, strR "làm", wsP, strR "gì"],
   catR [strR "mục", wsP, strR "đích", dotS, strR "là", wsP, strR "gì"]]

/-- `r'được\s+dùng|được\s+sử\s+dụng|vai\s+trò'` -/
def applPat3 : Regex := orR
  [catR [strR "được", wsP, strR "dùng"],
   catR [strR "được", wsP, strR "sử", wsP, strR "dụng"],
   catR [strR "vai", wsP, strR "trò"]]

/-- `r'tại\s+sao|vì\s+sao|lý\s+do.*là'` -/
def reasonPat1 : Regex := orR
  [catR [strR "tại", wsP, strR "sao"],
   catR [strR "vì", wsP, strR "sao"],
   catR [strR "lý", wsP, strR "do", dotS, strR "là"]]

/-- `r'nguyên\s+nhân.*là|vì.*nên|do.*nên'` -/
def reasonPat2 : Regex := orR
  [catR [strR "nguyên", wsP, strR "nhân", dotS, strR "là"],
   catR [strR "vì", dotS, strR "nên"],
   catR [strR "do", dotS, strR "nên"]]

def calculationPatterns : List Regex :=
  [calcPat1, calcPat2, calcPat3, calcPat4, calcPat5, calcPat6, calcPat7,
   calcPat8, calcPat9]

def tableDataPatterns : List Regex := [tablePat1, tablePat2, tablePat3]

def documentComprehensionPatterns : List Regex :=
  [docPat1, docPat2, docPat3, docPat4, docPat5, docPat6]

def definitionPatterns : List Regex := [defnPat1, defnPat2, defnPat3, defnPat4]

def comparisonPatterns : List Regex := [compPat1, compPat2, compPat3, compPat4]

def procedurePatterns : List Regex :=
  [procPat1, procPat2, procPat3, procPat4, procPat5]

def explanationPatterns : List Regex := [explPat1, explPat2, explPat3, explPat4]

def identificationPatterns : List Regex :=
  [identPat1, identPat2, identPat3, identPat4]

def applicationPatterns : List Regex := [applPat1, applPat2, applPat3]

def reasonPatterns : List Regex := [reasonPat1, reasonPat2]

/-- The `self.patterns` dict of `QuestionClassifier.__init__`, as the map
from category name to its ordered pattern list. -/
def patternsFor : String → List Regex
  | "calculation" => calculationPatterns
  | "table_data" => tableDataPatterns
  | "document_comprehension" => documentComprehensionPatterns
  | "definition" => definitionPatterns
  | "comparison" => comparisonPatterns
  | "procedure" => procedurePatterns
  | "explanation" => explanationPatterns
  | "identification" => identificationPatterns
  | "application" => applicationPatterns
  | "reason" => reasonPatterns
  | _ => []

/-- The `priority_order` list of `QuestionClassifier.classify`. -/
def priorityOrder : List String :=
  ["table_data", "document_comprehension", "calculation", "definition",
   "comparison", "procedure", "explanation", "identification",
   "application", "reason"]

/-- The 11 categories of the data model (§3 of the spec). -/
def knownCategories : List String :=
  ["calculation", "table_data", "document_comprehension", "definition",
   "comparison", "procedure", "explanation", "identification",
   "application", "reason", "general"]

/-- Embeds `QuestionClassifier.classify` (src/question_classifier.py,
lines 86-125): empty or whitespace-only input returns `general`;
otherwise the text is lower-cased and the categories are tried in
`priority_order`, returning the first whose pattern list has a matching
pattern (`re.search`); if none matches, `general`. -/
def classify (question : String) : String :=
  if question.data.all isPyWS then "general"
  else
    match priorityOrder.find? (fun t =>
        (patternsFor t).any (fun p => research p (question.data.map pyLower))) with
    | some t => t
    | none => "general"

/- ===================================================================
   Query reformulation — src/rag_system.py, VietnameseMCQRAG.reformulate_query
   =================================================================== -/

/-- Embeds `VietnameseMCQRAG.reformulate_query` (src/rag_system.py,
lines 551-636).  The external generation pipeline (chat template,
tokenization, `generation_model.generate`, decode) is abstracted as the
parameter `gen`: `.error ()` models an exception raised anywhere inside
the `try` block, `.ok t` models the decoded new-token text.  `enabled`
is `config.REFORMULATION_ENABLED`; `genAvailable` is the test
`generation_model is not None and tokenizer is not None`.  The decoded
text is stripped (the source strips at decode time) and discarded in
favour of the original question when empty or shorter than 5
characters. -/
def reformulate_query (enabled : Bool) (genAvailable : Bool)
    (gen : Except Unit String) (question : String) : String :=
  if !enabled then question
  else if !genAvailable then question
  else
    match gen with
    | .error _ => question
    | .ok t =>
      let reformulated := pyStrip t
      if reformulated.data.isEmpty || reformulated.length < 5 then question
      else reformulated

/- ===================================================================
   Adaptive retrieval, document_comprehension arm —
   src/rag_system.py, VietnameseMCQRAG.adaptive_retrieval and
   VietnameseMCQRAG._retrieve_by_document
   =================================================================== -/

/-- A retrieved passage node: its text and the `file_name` entry of its
metadata (the provenance used by `_retrieve_by_document`). -/
structure RNode where
  text : String
  file_name : String
deriving DecidableEq

/-- The retrieval-side services and configuration referenced by
`adaptive_retrieval` / `_retrieve_by_document`, abstracted as explicit
functions: `retrieve` is `self.retriever.retrieve`, `rerank` is
`self.rerank_nodes`, `docstore` is the node collection of
`self.index.storage_context.docstore`, and `vecRetrieve k q` is a
`VectorIndexRetriever(index, similarity_top_k := k).retrieve(q)` call. -/
structure RetrievalEnv where
  TOP_K : Nat
  retrieve : String → List RNode
  rerank : List RNode → String → List RNode
  docstore : List RNode
  vecRetrieve : Nat → String → List RNode

/-- Exact (case-sensitive) literal list test used to model Python's
substring operator `in`. -/
def listStartsWith : List Char → List Char → Bool
  | [], _ => true
  | _ :: _, [] => false
  | a :: as, b :: bs => (a == b) && listStartsWith as bs

/-- Models Python's `needle in hay` on strings (as character lists). -/
def containsSub (needle : List Char) : List Char → Bool
  | [] => listStartsWith needle []
  | c :: rest => listStartsWith needle (c :: rest) || containsSub needle rest

/-- Models `re.search(r'public_(\d+)', question.lower())` from the
`document_comprehension` arm of `adaptive_retrieval`: the first position
where the literal `public_` is followed by at least one digit wins, and
the captured group is the maximal digit run (greedy `\d+`).  Returns
`none` when no such occurrence exists — note the pattern requires the
underscore. -/
def detectPublicId : List Char → Option (List Char)
  | [] => none
  | c :: rest =>
    if listStartsWith "public_".data (c :: rest) then
      let ds := ((c :: rest).drop 7).takeWhile Char.isDigit
      if ds.isEmpty then detectPublicId rest else some ds
    else detectPublicId rest

/-- The provenance test of `_retrieve_by_document`:
`f'public_{doc_id}' in file_name.lower() or f'public-{doc_id}' in
file_name.lower()`. -/
def matchesDoc (docId : List Char) (n : RNode) : Bool :=
  containsSub ("public_".data ++ docId) (n.file_name.data.map pyLower)
  || containsSub ("public-".data ++ docId) (n.file_name.data.map pyLower)

/-- Embeds `VietnameseMCQRAG._retrieve_by_document` (src/rag_system.py,
lines 757-795): collect the docstore nodes whose `file_name` matches the
document id; if none, return `[]`; otherwise run a vector retrieval with
`similarity_top_k = min(len(all_nodes), TOP_K * 2)` and keep only the
retrieved nodes from the requested document, falling back to the whole
(unfiltered) retrieval result when the filter removes everything. -/
def retrieve_by_document (env : RetrievalEnv) (docId : List Char)
    (query : String) : List RNode :=
  let all_nodes := env.docstore.filter (matchesDoc docId)
  if all_nodes.isEmpty then []
  else
    let nodes := env.vecRetrieve (min all_nodes.length (env.TOP_K * 2)) query
    let filtered_nodes := nodes.filter (matchesDoc docId)
    if filtered_nodes.isEmpty then nodes else filtered_nodes

/-- The generic fallthrough path at the end of the
`document_comprehension` arm of `adaptive_retrieval`: oversized
retrieval (`min(TOP_K * 2, 20)` candidates) followed by reranking (this
branch returns the reranked list without a further `[:TOP_K]` cut). -/
def genericRetrieval (env : RetrievalEnv) (reformulated_query : String) :
    List RNode :=
  let top_k := min (env.TOP_K * 2) 20
  env.rerank ((env.retrieve reformulated_query).take top_k) reformulated_query

/-- Embeds the `q_type == 'document_comprehension'` arm of
`VietnameseMCQRAG.adaptive_retrieval` (src/rag_system.py, lines
644-732): detect a `public_(\d+)` document id in the lower-cased
question; if found and `_retrieve_by_document` returns nodes, rerank
them and truncate to `TOP_K`; otherwise fall through to the generic
oversized retrieval. -/
def adaptive_retrieval_doc (env : RetrievalEnv) (question : String)
    (reformulated_query : String) : List RNode :=
  match detectPublicId (question.data.map pyLower) with
  | some docId =>
    let nodes := retrieve_by_document env docId reformulated_query
    if nodes.isEmpty then genericRetrieval env reformulated_query
    else (env.rerank nodes reformulated_query).take env.TOP_K
  | none => genericRetrieval env reformulated_query

/-- A node of document `public_123`, for concrete evaluations. -/
def docNode : RNode := { text := "nội dung public_123", file_name := "public_123.txt" }

/-- A node from an unrelated document, for concrete evaluations. -/
def otherNode : RNode := { text := "nội dung khác", file_name := "other_doc.txt" }

/-- A concrete retrieval environment: the generic retriever returns the
unrelated node, the vector retriever returns the `public_123` node, the
docstore holds the `public_123` node, and reranking is the identity. -/
def envC : RetrievalEnv :=
  { TOP_K := 2
    retrieve := fun _ => [otherNode]
    rerank := fun ns _ => ns
    docstore := [docNode]
    vecRetrieve := fun _ _ => [docNode] }

/-- Regexes whose every match must start with a non-whitespace character:
the first consumed character comes from a class disjoint from
whitespace.  Every classifier pattern below is of this shape, which is
what makes `classify` ignore whitespace-only questions. -/
inductive HeadNonWS : Regex → Prop
  | cls (p : Char → Bool) (h : ∀ c, isPyWS c = true → p c = false) :
      HeadNonWS (.cls p)
  | seqFst {r1 r2 : Regex} (h : HeadNonWS r1) : HeadNonWS (.seq r1 r2)
  | alt {r1 r2 : Regex} (h1 : HeadNonWS r1) (h2 : HeadNonWS r2) :
      HeadNonWS (.alt r1 r2)

/- ===================================================================
   Helper lemmas
   =================================================================== -/

theorem card_sub_inter_card (s t : Finset Char) :
    s.card - (t ∩ s).card = (s \ t).card := by
  rw [Finset.inter_comm, ← Finset.sdiff_inter_self_left s t,
    Finset.card_sdiff Finset.inter_subset_left]

/-- The error count `(k - c) + w` is the cardinality of the symmetric
difference of the two answer sets, so `calculate_score` is symmetric. -/
theorem calculate_score_comm (P A : List Char) :
    calculate_score P A = calculate_score A P := by
  simp only [calculate_score]
  rw [card_sub_inter_card A.toFinset P.toFinset,
    card_sub_inter_card P.toFinset A.toFinset,
    Nat.add_comm ((A.toFinset \ P.toFinset).card) ((P.toFinset \ A.toFinset).card)]

/- ===================================================================
   Claims
   =================================================================== -/

/-- C1: with `k = |actual|`, `c = |predicted ∩ actual|`,
`w = |predicted - actual|` and `e = (k - c) + w`, `calculate_score`
returns exactly 1 when `e = 0`, 1/2 when `e = 1` and 0 when `e ≥ 2`;
its result is always one of {0, 1/2, 1}, never negative and never
greater than 1. -/
theorem C1_score_cases (P A : List Char) :
    (A.toFinset.card - (P.toFinset ∩ A.toFinset).card
        + (P.toFinset \ A.toFinset).card = 0 → calculate_score P A = 1)
    ∧ (A.toFinset.card - (P.toFinset ∩ A.toFinset).card
        + (P.toFinset \ A.toFinset).card = 1 → calculate_score P A = 1/2)
    ∧ (2 ≤ A.toFinset.card - (P.toFinset ∩ A.toFinset).card
        + (P.toFinset \ A.toFinset).card → calculate_score P A = 0)
    ∧ (calculate_score P A = 0 ∨ calculate_score P A = 1/2 ∨ calculate_score P A = 1)
    ∧ 0 ≤ calculate_score P A ∧ calculate_score P A ≤ 1 := by
  simp only [calculate_score]
  refine ⟨fun h => ?_, fun h => ?_, fun h => ?_, ?_, ?_, ?_⟩
  · rw [if_pos h]
  · rw [if_neg (by omega), if_pos h]
  · rw [if_neg (by omega), if_neg (by omega)]
  · split_ifs <;> norm_num
  · split_ifs <;> norm_num
  · split_ifs <;> norm_num

/-- Witness for C1 at `P = A = [A]` (error count 0, score 1). -/
theorem C1_witness :
    ((['A'] : List Char).toFinset.card
        - ((['A'] : List Char).toFinset ∩ (['A'] : List Char).toFinset).card
        + ((['A'] : List Char).toFinset \ (['A'] : List Char).toFinset).card = 0)
    ∧ calculate_score ['A'] ['A'] = 1 :=
  ⟨by decide, (C1_score_cases ['A'] ['A']).1 (by decide)⟩

/-- C2 counterexample: the claim asserts some pair of answer sets is
scored asymmetrically, but no such pair exists — the error count
`(k - c) + w` equals the size of the symmetric difference of the two
sets, which is symmetric in the arguments. -/
theorem C2_counterexample :
    ¬ ∃ (P A : List Char), calculate_score P A ≠ calculate_score A P := by
  rintro ⟨P, A, h⟩
  exact h (calculate_score_comm P A)

/-- C2 amended: the scoring function IS symmetric: swapping predicted
and actual never changes the score, because
`(k - c) + w = |actual \ predicted| + |predicted \ actual|`. -/
theorem C2_amended_symmetric (P A : List Char) :
    calculate_score P A = calculate_score A P :=
  calculate_score_comm P A

/-- C3: batch evaluation pairs predictions and ground truth positionally
up to the shorter length (it is a total function — a length mismatch is
only logged), the final percentage is mean(per-pair scores) × 100 (0 for
an empty pairing), the perfect/partial/wrong counters count the pairs
scoring 1, 1/2 and 0, and the average processing time is the mean of
the paired records' times. -/
theorem C3_evaluate_results_spec (predictions : List (Nat × List Char × ℚ))
    (ground_truth : List (Nat × List Char)) :
    (evaluate_results predictions ground_truth).total_questions
        = min predictions.length ground_truth.length
    ∧ (predictions.zip ground_truth ≠ [] →
        (evaluate_results predictions ground_truth).final_score
          = (((predictions.zip ground_truth).map
                (fun pg => calculate_score pg.1.2.1 pg.2.2)).sum
              / ((predictions.zip ground_truth).length : ℚ)) * 100)
    ∧ (predictions.zip ground_truth = [] →
        (evaluate_results predictions ground_truth).final_score = 0)
    ∧ (evaluate_results predictions ground_truth).perfect_answers
        = ((predictions.zip ground_truth).map
            (fun pg => calculate_score pg.1.2.1 pg.2.2)).countP
              (fun s => decide (s = 1))
    ∧ (evaluate_results predictions ground_truth).partial_answers
        = ((predictions.zip ground_truth).map
            (fun pg => calculate_score pg.1.2.1 pg.2.2)).countP
              (fun s => decide (s = 1/2))
    ∧ (evaluate_results predictions ground_truth).wrong_answers
        = ((predictions.zip ground_truth).map
            (fun pg => calculate_score pg.1.2.1 pg.2.2)).countP
              (fun s => decide (s = 0))
    ∧ (predictions.zip ground_truth ≠ [] →
        (evaluate_results predictions ground_truth).average_processing_time
          = ((predictions.zip ground_truth).map (fun pg => pg.1.2.2)).sum
              / ((predictions.zip ground_truth).length : ℚ))
    ∧ (predictions.zip ground_truth = [] →
        (evaluate_results predictions ground_truth).average_processing_time = 0) := by
  have hzip : predictions.zip ground_truth ≠ [] →
      (¬ predictions = [] ∧ ¬ ground_truth = []) := by
    intro h
    refine ⟨fun he => h ?_, fun he => h ?_⟩ <;> simp [he]
  refine ⟨?_, fun h => ?_, fun h => ?_, ?_, ?_, ?_, fun h => ?_, fun h => ?_⟩
  · simp [evaluate_results]
  · simp [evaluate_results, List.map_map, Function.comp_def, (hzip h).1, (hzip h).2]
  · simp [evaluate_results, h]
  · simp [evaluate_results, List.map_map, List.countP_map, Function.comp_def]
  · simp [evaluate_results, List.map_map, List.countP_map, Function.comp_def]
  · simp [evaluate_results, List.map_map, List.countP_map, Function.comp_def]
  · simp [evaluate_results, List.map_map, Function.comp_def, (hzip h).1, (hzip h).2]
  · simp [evaluate_results, h]

/-- Witness for C3 at a singleton batch and at the empty batch. -/
theorem C3_witness :
    (evaluate_results [((0 : Nat), (['A'] : List Char), (2 : ℚ))]
        [((1 : Nat), (['A'] : List Char))]).final_score
      = ((([((0 : Nat), (['A'] : List Char), (2 : ℚ))].zip
            [((1 : Nat), (['A'] : List Char))]).map
            (fun pg => calculate_score pg.1.2.1 pg.2.2)).sum
          / (([((0 : Nat), (['A'] : List Char), (2 : ℚ))].zip
              [((1 : Nat), (['A'] : List Char))]).length : ℚ)) * 100
    ∧ (evaluate_results ([] : List (Nat × List Char × ℚ))
        ([] : List (Nat × List Char))).final_score = 0 :=
  ⟨(C3_evaluate_results_spec [(0, ['A'], 2)] [(1, ['A'])]).2.1 (by decide),
   (C3_evaluate_results_spec [] []).2.2.1 rfl⟩

/-- C4 counterexample: scoring the unparseable sentinel `['E']` against
the actual set {A} yields 0, while scoring the empty prediction against
{A} yields 1/2 — the sentinel does NOT score like the empty set here. -/
theorem C4_counterexample :
    calculate_score ['E'] ['A'] = 0 ∧ calculate_score [] ['A'] = 1/2
    ∧ calculate_score ['E'] ['A'] ≠ calculate_score [] ['A'] := by
  refine ⟨by rfl, by rfl, ?_⟩
  rw [show calculate_score ['E'] ['A'] = 0 from rfl,
    show calculate_score [] ['A'] = 1/2 from rfl]
  norm_num

/-- C4 amended: the sentinel counts every actual answer as missing but
ALSO contributes one wrongly-selected answer (`E` never belongs to the
actual set), so its error count is `k + 1` against the empty
prediction's `k`: the two score equally exactly when the actual set has
at least two elements (both 0); for an empty actual set the sentinel
scores 1/2 against the empty set's 1, and for a singleton actual set 0
against 1/2. -/
theorem C4_amended (A : List Char) (hE : 'E' ∉ A) :
    (2 ≤ A.toFinset.card → calculate_score ['E'] A = calculate_score [] A)
    ∧ (A.toFinset.card = 0 →
        calculate_score ['E'] A = 1/2 ∧ calculate_score [] A = 1)
    ∧ (A.toFinset.card = 1 →
        calculate_score ['E'] A = 0 ∧ calculate_score [] A = 1/2) := by
  have hE' : 'E' ∉ A.toFinset := by simpa using hE
  have h1 : (['E'] : List Char).toFinset = {'E'} := by simp
  have hi : ({'E'} : Finset Char) ∩ A.toFinset = ∅ :=
    Finset.singleton_inter_of_not_mem hE'
  have hd : ({'E'} : Finset Char) \ A.toFinset = {'E'} :=
    Finset.sdiff_eq_self_iff_disjoint.mpr (Finset.disjoint_singleton_left.mpr hE')
  simp only [calculate_score, h1, hi, hd, List.toFinset_nil, Finset.card_empty,
    Finset.card_singleton, Finset.empty_inter, Finset.empty_sdiff,
    Nat.sub_zero, Nat.add_zero]
  refine ⟨fun h => ?_, fun h => ?_, fun h => ?_⟩
  · rw [if_neg (by omega), if_neg (by omega), if_neg (by omega), if_neg (by omega)]
  · refine ⟨?_, ?_⟩
    · rw [if_neg (by omega), if_pos (by omega)]
    · rw [if_pos (by omega)]
  · refine ⟨?_, ?_⟩
    · rw [if_neg (by omega), if_neg (by omega)]
    · rw [if_neg (by omega), if_pos (by omega)]

/-- Witness for C4 amended at the two-element actual set {A, B}. -/
theorem C4_witness :
    ('E' ∉ (['A', 'B'] : List Char))
    ∧ calculate_score ['E'] ['A', 'B'] = calculate_score [] ['A', 'B'] :=
  ⟨by decide, (C4_amended ['A', 'B'] (by decide)).1 (by decide)⟩

/- ===================================================================
   Parser lemmas
   =================================================================== -/

theorem dapAnLit_eq :
    dapAnLit = ['đ', 'á', 'p', ' ', 'á', 'n', ' ', 'đ', 'ú', 'n', 'g', ':'] := rfl

theorem insertChar_ne_nil (c : Char) (l : List Char) : insertChar c l ≠ [] := by
  cases l with
  | nil => simp [insertChar]
  | cons d rest =>
    unfold insertChar
    split <;> simp

theorem sortChars_ne_nil (l : List Char) (h : l ≠ []) : sortChars l ≠ [] := by
  cases l with
  | nil => exact absurd rfl h
  | cons c rest =>
    simpa [sortChars] using insertChar_ne_nil c (List.foldr insertChar [] rest)

theorem isEmpty_false_of_ne_nil {α : Type} (l : List α) (h : l ≠ []) :
    l.isEmpty = false := by
  cases l with
  | nil => exact absurd rfl h
  | cons c rest => rfl

theorem tryMatches_ne_nil (ms : List (List Char)) (a : List Char)
    (h : tryMatches ms = some a) : a ≠ [] := by
  unfold tryMatches at h
  cases hl : ms.getLast? with
  | none => rw [hl] at h; simp at h
  | some R =>
    rw [hl] at h
    dsimp only at h
    by_cases he : (extractLetters R).isEmpty
    · rw [if_pos he] at h; simp at h
    · rw [if_neg he] at h
      obtain rfl := (Option.some.injEq _ _).mp h
      apply sortChars_ne_nil
      intro hd
      rw [List.dedup_eq_nil] at hd
      rw [hd] at he
      exact he rfl

/-- If a pattern has matches with a letter-carrying last match, the
per-pattern step of `parse_answer` returns those letters sorted and
deduplicated. -/
theorem tryMatches_of_letters (ms : List (List Char)) (R : List Char)
    (hlast : ms.getLast? = some R) (hne : extractLetters R ≠ []) :
    tryMatches ms = some (sortChars (extractLetters R).dedup) := by
  unfold tryMatches
  rw [hlast]
  dsimp only
  rw [if_neg (by simp [isEmpty_false_of_ne_nil _ hne])]

theorem pyLower_of_ws (c : Char) (h : isPyWS c = true) : pyLower c = c := by
  simp only [isPyWS, Bool.or_eq_true, beq_iff_eq] at h
  rcases h with ((((h | h) | h) | h) | h) | h <;> subst h <;> decide

theorem findDapAn_exists_nonws (fuel : Nat) :
    ∀ (s : List Char) (p : List Char × List Char),
      findDapAn fuel s = some p → ∃ c ∈ s, isPyWS c = false := by
  induction fuel with
  | zero => intro s p h; simp [findDapAn] at h
  | succ n ih =>
    intro s p h
    cases s with
    | nil => simp [findDapAn] at h
    | cons c rest =>
      by_cases hs : startsWithFold dapAnLit (c :: rest) = true
      · refine ⟨c, List.mem_cons_self c rest, ?_⟩
        rw [dapAnLit_eq] at hs
        rw [startsWithFold] at hs
        rw [Bool.and_eq_true] at hs
        have hc : pyLower c = 'đ' := by
          simpa using hs.1
        cases hw : isPyWS c
        · rfl
        · exfalso
          rw [pyLower_of_ws c hw] at hc
          subst hc
          exact absurd hw (by decide)
      · rw [findDapAn, if_neg hs] at h
        obtain ⟨x, hx, hxx⟩ := ih rest p h
        exact ⟨x, List.mem_cons_of_mem c hx, hxx⟩

theorem p1Matches_ne_nil_nonws (s : List Char) (h : p1Matches s ≠ []) :
    ∃ c ∈ s, isPyWS c = false := by
  cases hf : findDapAn (s.length + 1) s with
  | none =>
    exfalso
    apply h
    simp [p1Matches, dapAnScanAux, hf]
  | some p => exact findDapAn_exists_nonws _ s p hf

theorem all_ws_false_of_nonws (s : List Char)
    (h : ∃ c ∈ s, isPyWS c = false) : s.all isPyWS = false := by
  obtain ⟨c, hc, hcw⟩ := h
  cases hall : s.all isPyWS with
  | false => rfl
  | true => exact absurd (List.all_eq_true.mp hall c hc) (by simp [hcw])

/-- C5 counterexample: the response "A" matches no answer pattern and
contains the letter A, yet `parse_answer` returns the sentinel `['E']`
rather than the letters of a whole-text fallback scan — no such fallback
exists in the source. -/
theorem C5_counterexample :
    p1Matches "A".data = [] ∧ p3Matches "A".data = [] ∧ p4Matches "A".data = []
    ∧ 'A' ∈ "A".data
    ∧ parse_answer "A" = ['E']
    ∧ parse_answer "A" ≠ ['A'] :=
  ⟨by decide, by decide, by decide, by decide, by decide, by decide⟩

/-- C5 amended: when no pattern matches, `parse_answer` returns the
sentinel `['E']` directly — it performs NO fallback scan of the text for
A–D letters; empty (and whitespace-only) input and pattern-free text
also yield the sentinel, which is distinct from the empty answer set,
and the parser never returns the empty set. -/
theorem C5_amended :
    (∀ r : String, p1Matches r.data = [] → p3Matches r.data = [] →
        p4Matches r.data = [] → parse_answer r = ['E'])
    ∧ parse_answer "" = ['E']
    ∧ parse_answer "không có thông tin liên quan" = ['E']
    ∧ (∀ r : String, parse_answer r ≠ []) := by
  refine ⟨?_, by decide, by decide, ?_⟩
  · intro r h1 h3 h4
    by_cases hw : r.data.all isPyWS
    · simp [parse_answer, hw]
    · simp [parse_answer, hw, h1, h3, h4, tryMatches]
  · intro r
    by_cases hw : r.data.all isPyWS
    · simp [parse_answer, hw]
    · cases ht1 : tryMatches (p1Matches r.data) with
      | some a =>
        simp only [parse_answer, hw, Bool.false_eq_true, if_false, ht1]
        exact tryMatches_ne_nil _ _ ht1
      | none =>
        cases ht3 : tryMatches (p3Matches r.data) with
        | some a =>
          simp only [parse_answer, hw, Bool.false_eq_true, if_false, ht1, ht3]
          exact tryMatches_ne_nil _ _ ht3
        | none =>
          cases ht4 : tryMatches (p4Matches r.data) with
          | some a =>
            simp only [parse_answer, hw, Bool.false_eq_true, if_false, ht1, ht3, ht4]
            exact tryMatches_ne_nil _ _ ht4
          | none =>
            simp [parse_answer, hw, ht1, ht3, ht4]

/-- Witness for C5 amended: a pattern-free response yields the sentinel. -/
theorem C5_witness :
    p1Matches "xyz".data = [] ∧ parse_answer "xyz" = ['E'] :=
  ⟨by decide, C5_amended.1 "xyz" (by decide) (by decide) (by decide)⟩

/-- C6 counterexample: in the response "Đáp án đúng: ," the first
pattern matches (captured region " ,") but the match carries no A–D
letter; the claim then demands the empty letter set, yet `parse_answer`
skips the pattern and returns the sentinel `['E']`. -/
theorem C6_counterexample :
    p1Matches "Đáp án đúng: ,".data = [[' ', ',']]
    ∧ extractLetters [' ', ','] = []
    ∧ parse_answer "Đáp án đúng: ," = ['E']
    ∧ parse_answer "Đáp án đúng: ," ≠ [] :=
  ⟨by decide, by decide, by decide, by decide⟩

/-- C6 amended: whenever the first pattern matches and its LAST match
contains at least one A–D letter, `parse_answer` returns exactly those
letters deduplicated and sorted ascending (a letter-free last match
instead makes the pattern fall through, ultimately to the sentinel).
In particular a response restating "Đáp án đúng:" twice parses to the
letters of the second occurrence, and "Đáp án đúng: A, C" parses to
[A, C]. -/
theorem C6_amended :
    (∀ (r : String) (R : List Char),
        (p1Matches r.data).getLast? = some R →
        extractLetters R ≠ [] →
        parse_answer r = sortChars (extractLetters R).dedup)
    ∧ parse_answer "Đáp án đúng: B. Vì vậy chọn lại. Đáp án đúng: A, C" = ['A', 'C']
    ∧ parse_answer "Đáp án đúng: A, C" = ['A', 'C'] := by
  refine ⟨?_, by decide, by decide⟩
  intro r R hlast hne
  have hm : p1Matches r.data ≠ [] := by
    intro h0; rw [h0] at hlast; simp at hlast
  have hws : r.data.all isPyWS = false :=
    all_ws_false_of_nonws _ (p1Matches_ne_nil_nonws _ hm)
  simp [parse_answer, hws, tryMatches_of_letters _ _ hlast hne]

/-- Witness for C6 amended at the response "Đáp án đúng: D". -/
theorem C6_witness :
    (p1Matches "Đáp án đúng: D".data).getLast? = some [' ', 'D']
    ∧ parse_answer "Đáp án đúng: D" = sortChars (extractLetters [' ', 'D']).dedup :=
  ⟨by decide, C6_amended.1 "Đáp án đúng: D" [' ', 'D'] (by decide) (by decide)⟩

/- ===================================================================
   Classifier lemmas
   =================================================================== -/

theorem ws_enum (c : Char) (h : isPyWS c = true) :
    c = ' ' ∨ c = '\t' ∨ c = '\n' ∨ c = '\r' ∨ c = '\x0b' ∨ c = '\x0c' := by
  simp only [isPyWS, Bool.or_eq_true, beq_iff_eq] at h
  tauto

theorem rmatch_nil_of_headNonWS (r : Regex) (hr : HeadNonWS r) :
    ∀ (fuel : Nat) (s : List Char), s.all isPyWS = true → rmatch fuel r s = [] := by
  induction hr with
  | cls p h =>
    intro fuel s hs
    cases fuel with
    | zero => rfl
    | succ n =>
      cases s with
      | nil => rfl
      | cons c rest =>
        have hc : isPyWS c = true :=
          List.all_eq_true.mp hs c (List.mem_cons_self c rest)
        simp [rmatch, h c hc]
  | seqFst h1 ih =>
    intro fuel s hs
    cases fuel with
    | zero => rfl
    | succ n => simp [rmatch, ih n s hs]
  | alt h1 h2 ih1 ih2 =>
    intro fuel s hs
    cases fuel with
    | zero => rfl
    | succ n => simp [rmatch, ih1 n s hs, ih2 n s hs]

theorem research_false_of_ws (r : Regex) (hr : HeadNonWS r) (s : List Char)
    (hs : s.all isPyWS = true) : research r s = false := by
  unfold research
  rw [List.any_eq_false]
  intro i hi
  have hdrop : (s.drop i).all isPyWS = true := by
    rw [List.all_eq_true] at hs ⊢
    intro x hx
    exact hs x (List.mem_of_mem_drop hx)
  simp [rmatch_nil_of_headNonWS r hr _ _ hdrop]

theorem headNonWS_chrR (c : Char) (h : isPyWS c = false) : HeadNonWS (chrR c) :=
  .cls _ (fun d hd => by
    by_cases hdc : d = c
    · rw [hdc] at hd; rw [hd] at h; exact absurd h (by simp)
    · simp [hdc])

theorem headNonWS_strCs (c : Char) (cs : List Char) (h : isPyWS c = false) :
    HeadNonWS (strCs (c :: cs)) :=
  .seqFst (headNonWS_chrR c h)

theorem headNonWS_digC : HeadNonWS digC :=
  .cls _ (fun c hc => by
    rcases ws_enum c hc with h | h | h | h | h | h <;> subst h <;> decide)

theorem headNonWS_tablePat1 : HeadNonWS tablePat1 :=
  .alt (.seqFst (headNonWS_strCs 'b' _ (by decide)))
    (.alt (.seqFst (headNonWS_strCs 't' _ (by decide)))
      (.seqFst (headNonWS_strCs 'd' _ (by decide))))

theorem headNonWS_tablePat2 : HeadNonWS tablePat2 :=
  .alt (.seqFst (headNonWS_strCs 'b' _ (by decide)))
    (.seqFst (headNonWS_strCs 'b' _ (by decide)))

theorem headNonWS_tablePat3 : HeadNonWS tablePat3 :=
  .alt (.seqFst (headNonWS_strCs 't' _ (by decide)))
    (.seqFst (headNonWS_strCs 't' _ (by decide)))

theorem headNonWS_calcPat1 : HeadNonWS calcPat1 :=
  .seqFst (headNonWS_strCs 'h' _ (by decide))

theorem headNonWS_calcPat2 : HeadNonWS calcPat2 :=
  .alt (.seqFst (headNonWS_strCs 't' _ (by decide)))
    (.alt (.seqFst (headNonWS_strCs 't' _ (by decide)))
      (.seqFst (headNonWS_strCs 't' _ (by decide))))

theorem headNonWS_calcPat3 : HeadNonWS calcPat3 :=
  .alt (.seqFst (headNonWS_strCs 'b' _ (by decide)))
    (.alt (.seqFst (headNonWS_strCs 'g' _ (by decide)))
      (.seqFst (headNonWS_strCs 'k' _ (by decide))))

theorem headNonWS_calcPat4 : HeadNonWS calcPat4 :=
  .alt (.seqFst (headNonWS_strCs 't' _ (by decide)))
    (.alt (.seqFst (headNonWS_strCs 'p' _ (by decide)))
      (.seqFst (headNonWS_strCs 't' _ (by decide))))

theorem headNonWS_calcPat5 : HeadNonWS calcPat5 :=
  .seqFst (.seqFst headNonWS_digC)

theorem headNonWS_calcPat6 : HeadNonWS calcPat6 :=
  .alt (.seqFst (headNonWS_chrR 'λ' (by decide)))
    (.alt (headNonWS_strCs 'e' _ (by decide))
      (.alt (headNonWS_strCs 't' _ (by decide))
        (.alt (headNonWS_strCs 'm' _ (by decide))
          (headNonWS_strCs 'm' _ (by decide)))))

theorem headNonWS_calcPat7 : HeadNonWS calcPat7 :=
  .alt (.seqFst (headNonWS_strCs 'c' _ (by decide)))
    (.alt (.seqFst (headNonWS_strCs 'f' _ (by decide)))
      (.seqFst (headNonWS_strCs 't' _ (by decide))))

theorem headNonWS_calcPat8 : HeadNonWS calcPat8 :=
  .alt (.seqFst (headNonWS_chrR '=' (by decide)))
    (.alt (.seqFst (headNonWS_strCs 'b' _ (by decide)))
      (.seqFst (headNonWS_strCs 'k' _ (by decide))))

theorem headNonWS_calcPat9 : HeadNonWS calcPat9 :=
  .seqFst (headNonWS_strCs 't' _ (by decide))

theorem tableAny_ws_false (s : List Char) (hs : s.all isPyWS = true) :
    tableDataPatterns.any (fun p => research p s) = false := by
  simp [tableDataPatterns,
    research_false_of_ws _ headNonWS_tablePat1 s hs,
    research_false_of_ws _ headNonWS_tablePat2 s hs,
    research_false_of_ws _ headNonWS_tablePat3 s hs]

theorem calcAny_ws_false (s : List Char) (hs : s.all isPyWS = true) :
    calculationPatterns.any (fun p => research p s) = false := by
  simp [calculationPatterns,
    research_false_of_ws _ headNonWS_calcPat1 s hs,
    research_false_of_ws _ headNonWS_calcPat2 s hs,
    research_false_of_ws _ headNonWS_calcPat3 s hs,
    research_false_of_ws _ headNonWS_calcPat4 s hs,
    research_false_of_ws _ headNonWS_calcPat5 s hs,
    research_false_of_ws _ headNonWS_calcPat6 s hs,
    research_false_of_ws _ headNonWS_calcPat7 s hs,
    research_false_of_ws _ headNonWS_calcPat8 s hs,
    research_false_of_ws _ headNonWS_calcPat9 s hs]

/-- C7: classify is total and deterministic: every input (including the
empty string) is mapped to one of the 11 known categories (as a total
Lean function it cannot throw), empty or whitespace-only input maps to
`general`, and identical texts map to identical categories. -/
theorem C7_classify_total :
    (∀ q : String, classify q ∈ knownCategories)
    ∧ (∀ q : String, q.data.all isPyWS = true → classify q = "general")
    ∧ (∀ q₁ q₂ : String, q₁ = q₂ → classify q₁ = classify q₂) := by
  refine ⟨?_, ?_, ?_⟩
  · intro q
    by_cases hw : q.data.all isPyWS
    · simp [classify, hw, knownCategories]
    · unfold classify
      rw [if_neg (by simp [hw])]
      cases hf : priorityOrder.find? (fun t =>
          (patternsFor t).any (fun p => research p (q.data.map pyLower))) with
      | none => simp [knownCategories]
      | some t =>
        dsimp only
        have ht := List.mem_of_find?_eq_some hf
        fin_cases ht <;> decide
  · intro q h; simp [classify, h]
  · intro q₁ q₂ h; rw [h]

/-- Witness for C7: whitespace-only input yields `general`, and a
pattern-free input is still mapped into the known categories. -/
theorem C7_witness :
    ("  ".data.all isPyWS = true) ∧ classify "  " = "general"
    ∧ classify "xin chào" ∈ knownCategories :=
  ⟨by decide, C7_classify_total.2.1 "  " (by decide),
   C7_classify_total.1 "xin chào"⟩

/-- C8: a question matching both a `table_data` pattern and a
`calculation` pattern classifies as `table_data` (the priority order
tests `table_data` first), and more generally the first category in the
priority order with a matching pattern wins — e.g. a question matching a
`calculation` pattern but no `table_data` and no
`document_comprehension` pattern classifies as `calculation`. -/
theorem C8_priority (q : String) :
    (tableDataPatterns.any
        (fun p => research p (q.data.map pyLower)) = true →
     calculationPatterns.any
        (fun p => research p (q.data.map pyLower)) = true →
     classify q = "table_data")
    ∧ (tableDataPatterns.any
          (fun p => research p (q.data.map pyLower)) = false →
       documentComprehensionPatterns.any
          (fun p => research p (q.data.map pyLower)) = false →
       calculationPatterns.any
          (fun p => research p (q.data.map pyLower)) = true →
       classify q = "calculation") := by
  have hnws : calculationPatterns.any
      (fun p => research p (q.data.map pyLower)) = true →
      q.data.all isPyWS = false := by
    intro hC
    cases hq : q.data.all isPyWS with
    | false => rfl
    | true =>
      exfalso
      have hmap : (q.data.map pyLower).all isPyWS = true := by
        rw [List.all_eq_true] at hq ⊢
        intro x hx
        obtain ⟨c, hc, rfl⟩ := List.mem_map.mp hx
        rw [pyLower_of_ws c (hq c hc)]
        exact hq c hc
      rw [calcAny_ws_false _ hmap] at hC
      cases hC
  constructor
  · intro hT hC
    unfold classify
    rw [if_neg (by simp [hnws hC])]
    have hT' : ((patternsFor "table_data").any
        (fun p => research p (q.data.map pyLower))) = true := by
      rw [show patternsFor "table_data" = tableDataPatterns from rfl]
      exact hT
    have hf : priorityOrder.find? (fun t =>
        (patternsFor t).any (fun p => research p (q.data.map pyLower)))
          = some "table_data" := by
      unfold priorityOrder
      exact List.find?_cons_of_pos _ hT'
    rw [hf]
  · intro hT hD hC
    unfold classify
    rw [if_neg (by simp [hnws hC])]
    have hT' : ((patternsFor "table_data").any
        (fun p => research p (q.data.map pyLower))) = false := by
      rw [show patternsFor "table_data" = tableDataPatterns from rfl]
      exact hT
    have hD' : ((patternsFor "document_comprehension").any
        (fun p => research p (q.data.map pyLower))) = false := by
      rw [show patternsFor "document_comprehension"
          = documentComprehensionPatterns from rfl]
      exact hD
    have hC' : ((patternsFor "calculation").any
        (fun p => research p (q.data.map pyLower))) = true := by
      rw [show patternsFor "calculation" = calculationPatterns from rfl]
      exact hC
    have hf : priorityOrder.find? (fun t =>
        (patternsFor t).any (fun p => research p (q.data.map pyLower)))
          = some "calculation" := by
      unfold priorityOrder
      rw [List.find?_cons_of_neg _ (by simp [hT']),
        List.find?_cons_of_neg _ (by simp [hD'])]
      exact List.find?_cons_of_pos _ hC'
    rw [hf]

/-- Witness for C8 at "theo bảng hãy tính" (matches `theo\s+bảng` and
`hãy\s+tính`) and at "hãy tính" (calculation only). -/
theorem C8_witness :
    (tableDataPatterns.any
        (fun p => research p ("theo bảng hãy tính".data.map pyLower)) = true)
    ∧ (calculationPatterns.any
        (fun p => research p ("theo bảng hãy tính".data.map pyLower)) = true)
    ∧ classify "theo bảng hãy tính" = "table_data"
    ∧ classify "hãy tính" = "calculation" :=
  ⟨by decide, by decide,
   (C8_priority "theo bảng hãy tính").1 (by decide) (by decide),
   (C8_priority "hãy tính").2 (by decide) (by decide) (by decide)⟩

/-- C9: `reformulate_query` returns the original question unchanged
whenever reformulation is disabled by configuration, the generation
service is unavailable, generation raises an exception, or the stripped
generated result is empty or shorter than 5 characters; being a total
function of the generation outcome, it never propagates an exception. -/
theorem C9_reformulate_fallback (enabled genAvailable : Bool)
    (gen : Except Unit String) (question : String) :
    (enabled = false →
      reformulate_query enabled genAvailable gen question = question)
    ∧ (genAvailable = false →
      reformulate_query enabled genAvailable gen question = question)
    ∧ (∀ u, gen = .error u →
      reformulate_query enabled genAvailable gen question = question)
    ∧ (∀ t, gen = .ok t → (pyStrip t).length < 5 →
      reformulate_query enabled genAvailable gen question = question) := by
  refine ⟨fun h => ?_, fun h => ?_, fun u h => ?_, fun t h hlen => ?_⟩
  · simp [reformulate_query, h]
  · simp [reformulate_query, h]
  · subst h; cases enabled <;> cases genAvailable <;> simp [reformulate_query]
  · subst h
    cases enabled <;> cases genAvailable <;>
      simp [reformulate_query, Or.inr hlen]

/-- Witness for C9: disabled configuration, a raising generator, and a
too-short generation all fall back to the original question. -/
theorem C9_witness :
    reformulate_query false true (.ok "truy vấn tối ưu") "câu hỏi gốc" = "câu hỏi gốc"
    ∧ reformulate_query true true (.error ()) "câu hỏi gốc" = "câu hỏi gốc"
    ∧ ((pyStrip "  ab ").length < 5
        ∧ reformulate_query true true (.ok "  ab ") "câu hỏi gốc" = "câu hỏi gốc") :=
  ⟨(C9_reformulate_fallback false true (.ok "truy vấn tối ưu") "câu hỏi gốc").1 rfl,
   (C9_reformulate_fallback true true (.error ()) "câu hỏi gốc").2.2.1 () rfl,
   ⟨by decide,
    (C9_reformulate_fallback true true (.ok "  ab ") "câu hỏi gốc").2.2.2
      "  ab " rfl (by decide)⟩⟩

/-- C10 counterexample: the question "theo tài liệu public 123" is
classified `document_comprehension` and contains `public <digits>` with
a space, yet the retrieval arm detects NO document identifier (its
regex is `public_(\d+)`, underscore only) and falls back to the generic
retrieval, returning a passage from a different document — not a
provenance-restricted retrieval as the claim requires. -/
theorem C10_counterexample :
    classify "theo tài liệu public 123" = "document_comprehension"
    ∧ detectPublicId ("theo tài liệu public 123".data.map pyLower) = none
    ∧ adaptive_retrieval_doc envC "theo tài liệu public 123" "truy vấn" = [otherNode]
    ∧ matchesDoc ['1', '2', '3'] otherNode = false :=
  ⟨by decide, by decide, by decide, by decide⟩

/-- C10 amended: the `document_comprehension` arm detects a document
identifier only through the underscore form `public_<digits>` (on the
lower-cased question; the space form `public <digits>` is NOT
detected).  When no identifier is detected, or the by-document
retrieval is empty, it falls back to the oversized generic retrieval;
when the by-document retrieval returns nodes they are reranked and cut
to `TOP_K`; and as long as the by-document retrieval's internal
provenance filter is nonempty, every node it returns has provenance
matching the identifier. -/
theorem C10_amended (env : RetrievalEnv) (q rq : String) :
    (detectPublicId (q.data.map pyLower) = none →
      adaptive_retrieval_doc env q rq = genericRetrieval env rq)
    ∧ (∀ docId, detectPublicId (q.data.map pyLower) = some docId →
        retrieve_by_document env docId rq = [] →
        adaptive_retrieval_doc env q rq = genericRetrieval env rq)
    ∧ (∀ docId, detectPublicId (q.data.map pyLower) = some docId →
        retrieve_by_document env docId rq ≠ [] →
        adaptive_retrieval_doc env q rq
          = (env.rerank (retrieve_by_document env docId rq) rq).take env.TOP_K)
    ∧ (∀ docId n,
        (env.vecRetrieve (min (env.docstore.filter (matchesDoc docId)).length
            (env.TOP_K * 2)) rq).filter (matchesDoc docId) ≠ [] →
        n ∈ retrieve_by_document env docId rq → matchesDoc docId n = true) := by
  refine ⟨fun h => ?_, fun d hdet hempty => ?_, fun d hdet hne => ?_,
    fun d n hfil hmem => ?_⟩
  · simp [adaptive_retrieval_doc, h]
  · simp [adaptive_retrieval_doc, hdet, hempty]
  · simp [adaptive_retrieval_doc, hdet, isEmpty_false_of_ne_nil _ hne]
  · simp only [retrieve_by_document] at hmem
    by_cases hall : (env.docstore.filter (matchesDoc d)).isEmpty
    · rw [if_pos hall] at hmem
      simp at hmem
    · rw [if_neg hall] at hmem
      rw [if_neg (by simp [isEmpty_false_of_ne_nil _ hfil])] at hmem
      exact (List.mem_filter.mp hmem).2

/-- Witness for C10 amended: an underscore-form question is detected and
routed through the by-document retrieval. -/
theorem C10_witness :
    detectPublicId ("theo public_123".data.map pyLower) = some ['1', '2', '3']
    ∧ retrieve_by_document envC ['1', '2', '3'] "truy vấn" ≠ []
    ∧ adaptive_retrieval_doc envC "theo public_123" "truy vấn"
        = (envC.rerank (retrieve_by_document envC ['1', '2', '3'] "truy vấn")
            "truy vấn").take envC.TOP_K :=
  ⟨by decide, by decide,
   (C10_amended envC "theo public_123" "truy vấn").2.2.1 ['1', '2', '3']
     (by decide) (by decide)⟩

end Task2
